import Mathlib

/-!
Verification development for the ubirch pycom example
(src/main.py, src/lib/modem.py, src/lib/error_handling.py,
src/lib/ubirch/ubirch_data_client.py).

The Python code is shallowly embedded: pure computations become Lean
functions, side effects become explicit event traces, and a raised Python
exception becomes an `Except`/`Option PyErr` value. MicroPython integers
are unbounded, so `Nat`/`Int` model them exactly.
-/

/-- Kinds of Python exceptions that the modelled code can raise. -/
inductive PyErr where
  | nameError
  | indexError
  | ioError
  | generalExc
deriving DecidableEq

/- ## String helpers (models of Python str.split / str.strip)

Implemented over `String.data` (a plain `List Char`) so that every
function reduces inside the kernel. -/

/-- Characters Python's default str.strip removes (ASCII whitespace). -/
def isPySpace (c : Char) : Bool :=
  c = ' ' || c = '\t' || c = '\n' || c = '\r' || c = '\x0b' || c = '\x0c'

/-- Model of Python str.strip (default whitespace stripping). -/
def pyStrip (s : String) : String :=
  ⟨((s.data.dropWhile isPySpace).reverse.dropWhile isPySpace).reverse⟩

/-- Worker for `splitOnCRLF`: splits a character list at each "\r\n". -/
def splitCharsCRLF : List Char → List Char → List (List Char)
  | [], acc => [acc.reverse]
  | '\r' :: '\n' :: rest, acc => acc.reverse :: splitCharsCRLF rest []
  | c :: rest, acc => splitCharsCRLF rest (c :: acc)

/-- Model of Python s.split of the two-character separator "\r\n". -/
def splitOnCRLF (s : String) : List String :=
  (splitCharsCRLF s.data []).map (fun cs => ⟨cs⟩)

/- ## modem.py -/

/-- The line post-processing inside _send_at_cmd (modem.py line 9):
split the raw response on "\r\n" and keep the lines that are non-empty
after stripping (the kept lines themselves stay unstripped). -/
def processResp (raw : String) : List String :=
  (splitOnCRLF raw).filter (fun k => (pyStrip k).length > 0)

/-- The retry loop of _send_at_cmd (modem.py lines 5-18). `resp i` is the
raw string the LTE modem returns for the i-th attempt (0-based). The
Python loop runs `for _ in range(3)`, breaking when the last kept line is
the literal OK; `result[-1]` on an empty list raises IndexError. -/
def send_at_cmd_go (resp : Nat → String) : Nat → Nat → List String → Except PyErr (List String)
  | 0, _, result => .ok result
  | fuel + 1, i, _ =>
    let result := processResp (resp i)
    match result.getLast? with
    | none => .error PyErr.indexError
    | some last =>
      if last = "OK" then .ok result
      else send_at_cmd_go resp fuel (i + 1) result

/-- Model of _send_at_cmd (modem.py lines 5-18): up to 3 attempts,
starting from the Python initialisation `result = []`. -/
def send_at_cmd (resp : Nat → String) : Except PyErr (List String) :=
  send_at_cmd_go resp 3 0 []

/- ## error_handling.py -/

/-- Observable side effects of the modelled control flow. -/
inductive Ev where
  | ledGreen
  | ledPurple
  | ledRed
  | ledOff
  | ledSet
  | printMsg
  | printExc
  | measure
  | sendAttempt
  | logAttempt
  | idle
  | sleep (secs : Nat)
  | reset
  | continueNext
deriving DecidableEq

/-- Model of report_and_reset (main.py lines 48-54): LED purple, print,
optionally log_to_file (whose outcome is the parameter `logB`; the call
is not wrapped in try/except, so an exception there propagates and the
reset below it is never executed), then sleep 3 seconds and reset. -/
def report_and_reset (logfile : Bool) (logB : Except PyErr Unit) : List Ev × Option PyErr :=
  if logfile then
    match logB with
    | .error e => ([Ev.ledPurple, Ev.printMsg, Ev.logAttempt], some e)
    | .ok _ => ([Ev.ledPurple, Ev.printMsg, Ev.logAttempt, Ev.sleep 3, Ev.reset], none)
  else ([Ev.ledPurple, Ev.printMsg, Ev.sleep 3, Ev.reset], none)

/-- Model of ErrorHandler.log (error_handling.py lines 33-43): set LED,
print to console, write to the log file when one is configured (again not
guarded by try/except), machine.idle, sleep 3 seconds, and reset when
requested. `logB` is the outcome of the FileLogger.log call. -/
def errorHandler_log (hasLogfile : Bool) (logB : Except PyErr Unit) (rst : Bool) :
    List Ev × Option PyErr :=
  match (if hasLogfile then logB else .ok ()) with
  | .error e => ([Ev.ledSet, Ev.printMsg, Ev.logAttempt], some e)
  | .ok _ =>
    let mid := [Ev.ledSet, Ev.printMsg]
      ++ (if hasLogfile then [Ev.logAttempt] else []) ++ [Ev.idle, Ev.sleep 3]
    if rst then (mid ++ [Ev.printMsg, Ev.sleep 1, Ev.reset], none) else (mid, none)

/-- State of the persistent log file: the tracked write position
(file_position) and the current size of the file in bytes. -/
structure LogFile where
  pos : Nat
  size : Nat
deriving DecidableEq

/-- Offset at which the next FileLogger.log write starts (error_handling.py
lines 69-72): wrapped to 0 once the tracked position exceeds the cap. -/
def writeStart (maxSize : Nat) (s : LogFile) : Nat :=
  if s.pos > maxSize then 0 else s.pos

/-- Model of one FileLogger.log call (error_handling.py lines 64-83):
seek to the (possibly wrapped) position, write the timestamped entry of
`entryLen` bytes, and remember f.tell(). -/
def fileLogger_log (maxSize entryLen : Nat) (s : LogFile) : LogFile :=
  { pos := writeStart maxSize s + entryLen
    size := max s.size (writeStart maxSize s + entryLen) }

/-- A sequence of FileLogger.log calls within one process run. -/
def runWrites (maxSize : Nat) (entries : List Nat) (s : LogFile) : LogFile :=
  entries.foldl (fun st n => fileLogger_log maxSize n st) s

/-- State constructed by FileLogger.__init__ (error_handling.py lines
48-62): MAX_FILE_SIZE and logfile path attributes, and the initial
file_position (f.tell() of the log file opened in append mode, i.e. the
current file size). -/
structure FileLoggerState where
  MAX_FILE_SIZE : Nat
  logfile : String
  file_position : Nat
deriving DecidableEq

/-- Model of FileLogger.__init__ (error_handling.py lines 48-62). -/
def fileLogger_init (max_file_size_bytes : Nat) (sd_card_mounted : Bool)
    (currentSize : Nat) : FileLoggerState :=
  { MAX_FILE_SIZE := max_file_size_bytes
    logfile := (if sd_card_mounted then "/sd/" else "") ++ "log.txt"
    file_position := currentSize }

/-- Python booleans compare as integers: True as 1, False as 0. Used where
the source passes a bool into an int-typed parameter. -/
def pyBoolAsInt (b : Bool) : Nat := if b then 1 else 0

/-- Model of ErrorHandler.__init__ (error_handling.py lines 28-31): when
file logging is enabled it constructs FileLogger(sd_card) — the boolean
sd_card is passed positionally into the max_file_size_bytes parameter,
and sd_card_mounted keeps its default False. -/
def errorHandler_init (file_logging_enabled : Bool) (sd_card : Bool)
    (currentSize : Nat) : Option FileLoggerState :=
  if file_logging_enabled then some (fileLogger_init (pyBoolAsInt sd_card) false currentSize)
  else none

/- ## main.py logging -/

/-- MAX_FILE_SIZE constant of main.py line 23. -/
def MAIN_MAX_FILE_SIZE : Nat := 20000

/-- Model of log_to_file (main.py lines 26-45). The module-level global
file_position is modelled as an `Option Nat` (`none` = name not bound).
The body first reads the global (`if file_position > MAX_FILE_SIZE`);
reading an unbound global raises NameError. On success it returns the new
file_position and the new file size. -/
def log_to_file (filePos : Option Nat) (fileSize entryLen : Nat) :
    Except PyErr (Nat × Nat) :=
  match filePos with
  | none => .error PyErr.nameError
  | some p =>
    let start := if p > MAIN_MAX_FILE_SIZE then 0 else p
    .ok (start + entryLen, max fileSize (start + entryLen))

/-- Value of the module-level global file_position after Main.__init__
(main.py lines 90-95) has run: the statement `file_position = f.tell()`
on line 93 sits inside the method without a `global file_position`
declaration, so by Python scoping it binds a method-local name; no
statement at module scope ever assigns file_position, hence the
module-level binding is absent (`none`). -/
def mainInitFilePosition : Option Nat := none

/-- report_and_reset of main.py with its log_to_file call wired to the
modelled module-global file_position. -/
def report_and_reset_main (logfile : Bool) (g : Option Nat) (fileSize entryLen : Nat) :
    List Ev × Option PyErr :=
  report_and_reset logfile ((log_to_file g fileSize entryLen).map (fun _ => ()))

/- ## main.py loop body -/

/-- Inputs of one iteration of Main.loop (main.py lines 173-215), with
the behaviour of the external collaborators abstracted: whether the
configured connection is "wifi" or "nbiot", whether the liveness probe
reports connected, whether the reconnect attempt succeeds, whether
ubirch_client.send raises, the outcome of any log_to_file call, and the
configured interval together with the elapsed time of this cycle. -/
structure LoopInput where
  connIsNetwork : Bool
  isconnected : Bool
  reconnectOk : Bool
  logfile : Bool
  logB : Except PyErr Unit
  sendRaises : Bool
  interval : Nat
  passed : Nat

/-- The connectivity re-check of Main.loop (main.py lines 183-200): when
the medium reports disconnected, LED purple, print, optional log_to_file
(unguarded, so an exception aborts the iteration), then reconnect; on
reconnect failure report_and_reset runs, otherwise LED back to green. -/
def connectivityPhase (i : LoopInput) : List Ev × Option PyErr :=
  if i.connIsNetwork && !i.isconnected then
    match (if i.logfile then i.logB else .ok ()) with
    | .error e => ([Ev.ledPurple, Ev.printMsg, Ev.logAttempt], some e)
    | .ok _ =>
      let pre := [Ev.ledPurple, Ev.printMsg] ++ (if i.logfile then [Ev.logAttempt] else [])
      if i.reconnectOk then (pre ++ [Ev.ledGreen], none)
      else
        let r := report_and_reset i.logfile i.logB
        (pre ++ r.1, r.2)
  else ([], none)

/-- The guarded transmission step of Main.loop (main.py lines 202-209):
try ubirch_client.send; on exception LED red, print the exception,
optionally log_to_file (unguarded: a raise here propagates out of the
except handler and aborts the loop), then time.sleep(3). -/
def sendPhase (i : LoopInput) : List Ev × Option PyErr :=
  if i.sendRaises then
    match (if i.logfile then i.logB else .ok ()) with
    | .error e => ([Ev.sendAttempt, Ev.ledRed, Ev.printExc, Ev.logAttempt], some e)
    | .ok _ =>
      ([Ev.sendAttempt, Ev.ledRed, Ev.printExc]
        ++ (if i.logfile then [Ev.logAttempt] else []) ++ [Ev.sleep 3], none)
  else ([Ev.sendAttempt], none)

/-- One iteration of Main.loop (main.py lines 173-215): LED green,
measure, connectivity re-check, guarded transmission, then the sleep
budget `interval - passed` when positive, and on to the next iteration.
An uncaught exception or a device reset ends the iteration early. -/
def loopIteration (i : LoopInput) : List Ev × Option PyErr :=
  let head := [Ev.ledGreen, Ev.measure]
  let c := connectivityPhase i
  if c.2.isSome || (c.1.contains Ev.reset) then (head ++ c.1, c.2)
  else
    let s := sendPhase i
    if s.2.isSome then (head ++ c.1 ++ s.1, s.2)
    else
      let tail := [Ev.printMsg]
        ++ (if i.interval > i.passed then [Ev.ledOff, Ev.sleep (i.interval - i.passed)] else [])
        ++ [Ev.continueNext]
      (head ++ c.1 ++ s.1 ++ tail, none)

/- ## ubirch_data_client.py

The data map produced by Main.prepare_data (main.py lines 128-167) is a
flat ordered mapping from field names to scalar values, so the message
payload is modelled as an association list of scalars. The numeric
sensor values are modelled as exact integers; the claims proved below
are independent of the leaf encoding of a number. -/

/-- A scalar field value of a Reading. -/
inductive Scalar where
  | int (n : Int)
  | str (s : String)
deriving DecidableEq

/-- The flat ordered data map handed to UbirchDataClient.send. -/
abbrev Reading : Type := List (String × Scalar)

/-- UTF-8 bytes of a string (Python str encoded for hashing/serialising). -/
def strBytes (s : String) : List Nat := s.toUTF8.toList.map (fun b => b.toNat)

/- ### msgpack serialisation (model of umsgpack.packb)

Big-endian byte strings and the header formats of the msgpack
specification, which umsgpack implements. -/

/-- Big-endian encoding of `n` into `w` bytes. -/
def beBytes : Nat → Nat → List Nat
  | 0, _ => []
  | w + 1, n => beBytes w (n / 256) ++ [n % 256]

/-- msgpack encoding of a non-negative integer. -/
def encPosInt (n : Nat) : List Nat :=
  if n < 128 then [n]
  else if n < 256 then [0xcc, n]
  else if n < 65536 then [0xcd] ++ beBytes 2 n
  else if n < 4294967296 then [0xce] ++ beBytes 4 n
  else [0xcf] ++ beBytes 8 n

/-- msgpack encoding of an integer (fixint / intN / uintN families). -/
def encInt (n : Int) : List Nat :=
  if 0 ≤ n then encPosInt n.toNat
  else if -32 ≤ n then [(n + 256).toNat]
  else if -128 ≤ n then [0xd0, (n + 256).toNat]
  else if -32768 ≤ n then [0xd1] ++ beBytes 2 (n + 65536).toNat
  else if -4294967296 / 2 ≤ n then [0xd2] ++ beBytes 4 (n + 4294967296).toNat
  else [0xd3] ++ beBytes 8 (n + 18446744073709551616).toNat

/-- msgpack bin header for a byte string of length `len`. -/
def encBinHeader (len : Nat) : List Nat :=
  if len < 256 then [0xc4, len]
  else if len < 65536 then [0xc5] ++ beBytes 2 len
  else [0xc6] ++ beBytes 4 len

/-- msgpack encoding of a byte string. -/
def encBin (bs : List Nat) : List Nat := encBinHeader bs.length ++ bs

/-- msgpack str header for a UTF-8 string of `len` bytes. -/
def encStrHeader (len : Nat) : List Nat :=
  if len < 32 then [0xa0 + len]
  else if len < 256 then [0xd9, len]
  else if len < 65536 then [0xda] ++ beBytes 2 len
  else [0xdb] ++ beBytes 4 len

/-- msgpack encoding of a string. -/
def encStrVal (s : String) : List Nat := encStrHeader (strBytes s).length ++ strBytes s

/-- msgpack array header for `len` elements. -/
def encArrHeader (len : Nat) : List Nat :=
  if len < 16 then [0x90 + len]
  else if len < 65536 then [0xdc] ++ beBytes 2 len
  else [0xdd] ++ beBytes 4 len

/-- msgpack map header for `len` key-value pairs. -/
def encMapHeader (len : Nat) : List Nat :=
  if len < 16 then [0x80 + len]
  else if len < 65536 then [0xde] ++ beBytes 2 len
  else [0xdf] ++ beBytes 4 len

/-- msgpack encoding of a scalar field value. -/
def encScalar : Scalar → List Nat
  | .int n => encInt n
  | .str s => encStrVal s

/-- msgpack encoding of the data map (a msgpack map in insertion order). -/
def encReading (d : Reading) : List Nat :=
  encMapHeader d.length ++ (d.map (fun kv => encStrVal kv.1 ++ encScalar kv.2)).foldr (· ++ ·) []

/-- Value occupying the fifth slot of the msgpack message: the integer
placeholder 0 before hashing, the hash bytes after. -/
inductive MpSlot where
  | int (n : Int)
  | bin (bs : List Nat)
deriving DecidableEq

/-- msgpack encoding of the fifth slot. -/
def encSlot : MpSlot → List Nat
  | .int n => encInt n
  | .bin bs => encBin bs

/-- The fixed message type tag self._msg_type = 1
(ubirch_data_client.py line 45). -/
def msg_type : Int := 1

/-- umsgpack.packb of the five-element message array
[uuid.bytes, msg_type, timestamp, data, slot] built in
pack_message_msgpack (ubirch_data_client.py lines 54-68). -/
def packbMsg (u : List Nat) (t : Int) (d : Reading) (slot : MpSlot) : List Nat :=
  encArrHeader 5 ++ encBin u ++ encInt msg_type ++ encInt t ++ encReading d ++ encSlot slot

/-- The serialisation of the message with the hash-placeholder slot
excluded: the five-element array header followed by the encodings of the
device UUID, the message type, the timestamp and the data only. -/
def regionMsgpack (u : List Nat) (t : Int) (d : Reading) : List Nat :=
  encArrHeader 5 ++ encBin u ++ encInt msg_type ++ encInt t ++ encReading d

/-- Model of pack_message_msgpack (ubirch_data_client.py lines 47-71):
serialize the message with placeholder 0, drop the final byte
(Python slicing [0:-1]), hash those bytes with the ubirch protocol hash
`H`, then re-serialize with the placeholder replaced by the hash.
Returns (serialized message, message hash). -/
def pack_message_msgpack (H : List Nat → List Nat) (u : List Nat) (t : Int) (d : Reading) :
    List Nat × List Nat :=
  let serialized := (packbMsg u t d (.int 0)).dropLast
  let message_hash := H serialized
  (packbMsg u t d (.bin message_hash), message_hash)

/- ### JSON serialisation (model of json.dumps on the message map) -/

/-- A top-level field value of the JSON message map. -/
inductive JField where
  | jint (n : Int)
  | jstr (s : String)
  | jobj (d : Reading)
deriving DecidableEq

/-- JSON escaping of one character (quote, backslash and the common
control characters; other characters pass through unchanged). -/
def jsonEscapeChar (c : Char) : String :=
  if c = '\\' then "\\\\"
  else if c = '"' then "\\\""
  else if c = '\n' then "\\n"
  else if c = '\r' then "\\r"
  else if c = '\t' then "\\t"
  else String.mk [c]

/-- A JSON string literal with quotes. -/
def quoteJson (s : String) : String :=
  "\"" ++ String.join (s.data.map jsonEscapeChar) ++ "\""

/-- json.dumps of a scalar value. -/
def dumpsScalar : Scalar → String
  | .int n => toString n
  | .str s => quoteJson s

/-- json.dumps of the nested data map, keys in insertion order, with
Python's default separators. -/
def dumpsReading (d : Reading) : String :=
  "\x7b" ++ String.intercalate ", " (d.map (fun kv => quoteJson kv.1 ++ ": " ++ dumpsScalar kv.2)) ++ "\x7d"

/-- json.dumps of a top-level field value. -/
def dumpsField : JField → String
  | .jint n => toString n
  | .jstr s => quoteJson s
  | .jobj d => dumpsReading d

/-- json.dumps of the message map, keys in insertion order. -/
def dumps (m : List (String × JField)) : String :=
  "\x7b" ++ String.intercalate ", " (m.map (fun kv => quoteJson kv.1 ++ ": " ++ dumpsField kv.2)) ++ "\x7d"

/-- The base64 alphabet. -/
def b64Alphabet : List Char :=
  "ABCDEFGHIJKLMNOPQRSTUVWXYZabcdefghijklmnopqrstuvwxyz0123456789+/".data

/-- Character of the base64 alphabet at index `n`. -/
def b64Char (n : Nat) : Char := b64Alphabet.getD n 'A'

/-- Model of binascii.b2a_base64(h).decode().rstrip of the trailing
newline: standard base64 of a byte string, without the newline. -/
def b64encode : List Nat → String
  | [] => ""
  | [b1] => String.mk [b64Char (b1 / 4), b64Char (b1 % 4 * 16), '=', '=']
  | [b1, b2] => String.mk [b64Char (b1 / 4), b64Char (b1 % 4 * 16 + b2 / 16), b64Char (b2 % 16 * 4), '=']
  | b1 :: b2 :: b3 :: rest =>
    String.mk [b64Char (b1 / 4), b64Char (b1 % 4 * 16 + b2 / 16),
      b64Char (b2 % 16 * 4 + b3 / 64), b64Char (b3 % 64)] ++ b64encode rest

/-- The JSON message map before the hash is appended: device UUID string,
message type, timestamp and data, in insertion order
(ubirch_data_client.py lines 80-85). -/
def regionJson (uuidStr : String) (t : Int) (d : Reading) : List (String × JField) :=
  [("uuid", .jstr uuidStr), ("msg_type", .jint msg_type), ("timestamp", .jint t), ("data", .jobj d)]

/-- Model of pack_message_json (ubirch_data_client.py lines 73-96): build
the message map, hash json.dumps of it (its UTF-8 bytes) with the ubirch
protocol hash `H`, then append the base64 of the hash under the key
"hash". Returns (message map, message hash). -/
def pack_message_json (H : List Nat → List Nat) (uuidStr : String) (t : Int) (d : Reading) :
    List (String × JField) × List Nat :=
  let msg_map : List (String × JField) :=
    [("uuid", .jstr uuidStr), ("msg_type", .jint msg_type), ("timestamp", .jint t), ("data", .jobj d)]
  let message_hash := H (strBytes (dumps msg_map))
  (msg_map ++ [("hash", .jstr (b64encode message_hash))], message_hash)

/- ### HTTP transmission (send_msgpack / send_json / send) -/

/-- The visible state of the data-service endpoint: the status each
successive POST will return, and how many data POSTs were issued. -/
structure HttpWorld where
  statuses : Nat → Nat
  posted : Nat

/-- One POST of the message to the data-service endpoint: returns the
status of this POST and advances the counter. -/
def postData (w : HttpWorld) : Nat × HttpWorld :=
  (w.statuses w.posted, { w with posted := w.posted + 1 })

/-- Model of send_msgpack (ubirch_data_client.py lines 98-109): pack,
then a single POST; returns ((authoritative status, message hash),
world). -/
def send_msgpack (H : List Nat → List Nat) (u : List Nat) (t : Int) (d : Reading)
    (w : HttpWorld) : (Nat × List Nat) × HttpWorld :=
  (((postData w).1, (pack_message_msgpack H u t d).2), (postData w).2)

/-- Model of send_json (ubirch_data_client.py lines 111-123): pack, then
two POSTs issued unconditionally (the first response is closed and
discarded — a documented backend workaround); the second response is the
one returned. -/
def send_json (H : List Nat → List Nat) (uuidStr : String) (t : Int) (d : Reading)
    (w : HttpWorld) : (Nat × List Nat) × HttpWorld :=
  (((postData (postData w).2).1, (pack_message_json H uuidStr t d).2),
    (postData (postData w).2).2)

/-- The tail of UbirchDataClient.send (ubirch_data_client.py lines
138-146): on status 200 close the response and send the UPP for the
message hash to the auth service (the `some hash` component); otherwise
raise an Exception and send nothing. -/
def sendFinish : (Nat × List Nat) × HttpWorld → Except Unit Unit × HttpWorld × Option (List Nat)
  | ((st, h), w) => if st = 200 then (.ok (), w, some h) else (.error (), w, none)

/-- Model of UbirchDataClient.send (ubirch_data_client.py lines 125-146):
choose the binary path when the data-service URL ends with "msgPack",
else the textual path, then dispatch on the returned status. -/
def dataClientSend (url : String) (H : List Nat → List Nat) (u : List Nat) (uuidStr : String)
    (t : Int) (d : Reading) (w : HttpWorld) : Except Unit Unit × HttpWorld × Option (List Nat) :=
  if url.endsWith "msgPack" then sendFinish (send_msgpack H u t d w)
  else sendFinish (send_json H uuidStr t d w)

/- ### Spec-level excluded regions (for the hash-stability property) -/

/-- Modelled from the spec: the "excluded region" of a serialized msgpack
message is the serialization with the bytes of the hash slot (the final
array element) removed from its tail. -/
def excludedRegionMsgpack (u : List Nat) (t : Int) (d : Reading) (slot : MpSlot) : List Nat :=
  (packbMsg u t d slot).take ((packbMsg u t d slot).length - (encSlot slot).length)

/-- Modelled from the spec: the JSON message map with the hash slot
removed. -/
def eraseHashField (m : List (String × JField)) : List (String × JField) :=
  m.filter (fun kv => kv.1 != "hash")

/- ## Theorems -/

/-- The msgpack encoding of the integer 0 is the single byte 0x00, so
Python's slice [0:-1] of the serialized placeholder message removes
exactly the placeholder slot's bytes. -/
lemma encInt_zero : encInt 0 = [0] := rfl

/-- The serialized message splits into the excluded region followed by
the bytes of the fifth slot. -/
lemma packbMsg_split (u : List Nat) (t : Int) (d : Reading) (slot : MpSlot) :
    packbMsg u t d slot = regionMsgpack u t d ++ encSlot slot := by
  simp [packbMsg, regionMsgpack, List.append_assoc]

/-- Dropping the final byte of the placeholder message yields the
serialization with the hash slot excluded. -/
lemma packbMsg_dropLast (u : List Nat) (t : Int) (d : Reading) :
    (packbMsg u t d (.int 0)).dropLast = regionMsgpack u t d := by
  rw [packbMsg_split]
  show (regionMsgpack u t d ++ [0]).dropLast = regionMsgpack u t d
  exact List.dropLast_concat ..

/-- Removing the fifth slot's bytes from the tail of the serialized
message recovers the excluded region, whatever the slot holds. -/
lemma excludedRegionMsgpack_eq (u : List Nat) (t : Int) (d : Reading) (slot : MpSlot) :
    excludedRegionMsgpack u t d slot = regionMsgpack u t d := by
  unfold excludedRegionMsgpack
  rw [packbMsg_split]
  simp [List.take_left]

/-- Appending the hash field to the JSON message map and then erasing the
hash slot recovers the original four-field map. -/
lemma eraseHashField_append (uuidStr : String) (t : Int) (d : Reading) (v : JField) :
    eraseHashField (regionJson uuidStr t d ++ [("hash", v)]) = regionJson uuidStr t d := by
  simp [eraseHashField, regionJson]

/-- C1: for every data map D, device UUID U and capture time T, the
packed canonical message carries the fields [device U, type 1,
timestamp T, data D, hash H], and the hash H is the ubirch hash of the
serialization of the message with the hash-placeholder slot excluded, so
H commits to exactly those four fields — for the msgpack encoding of
pack_message_msgpack and the JSON encoding of pack_message_json alike. -/
theorem C1_pack_hash_commits (H : List Nat → List Nat) (u : List Nat) (uuidStr : String)
    (t : Int) (d : Reading) :
    (pack_message_msgpack H u t d).2 = H (regionMsgpack u t d)
    ∧ (pack_message_msgpack H u t d).1 = packbMsg u t d (.bin (H (regionMsgpack u t d)))
    ∧ (pack_message_json H uuidStr t d).2 = H (strBytes (dumps (regionJson uuidStr t d)))
    ∧ (pack_message_json H uuidStr t d).1
        = regionJson uuidStr t d
          ++ [("hash", JField.jstr (b64encode (H (strBytes (dumps (regionJson uuidStr t d))))))] := by
  refine ⟨?_, ?_, rfl, rfl⟩ <;> simp [pack_message_msgpack, packbMsg_dropLast]

/-- C6: the hash of the canonical message excluding the placeholder is
deterministic and stable: after inserting the computed hash into the
message and re-serializing, re-computing the hash over the same excluded
region (the serialization without the hash slot) yields the same hash —
the hash does not depend on itself. Holds for the msgpack message (the
excluded region of the re-serialized message, i.e. its bytes with the
hash slot's bytes removed, hashes back to the same value) and for the
JSON message (the dump of the map with the hash slot erased hashes back
to the same value). -/
theorem C6_hash_stable (H : List Nat → List Nat) (u : List Nat) (uuidStr : String)
    (t : Int) (d : Reading) :
    (∀ slot : MpSlot, excludedRegionMsgpack u t d slot = regionMsgpack u t d)
    ∧ H (excludedRegionMsgpack u t d (.bin (pack_message_msgpack H u t d).2))
        = (pack_message_msgpack H u t d).2
    ∧ eraseHashField (pack_message_json H uuidStr t d).1 = regionJson uuidStr t d
    ∧ H (strBytes (dumps (eraseHashField (pack_message_json H uuidStr t d).1)))
        = (pack_message_json H uuidStr t d).2 := by
  refine ⟨fun slot => excludedRegionMsgpack_eq u t d slot, ?_, ?_, ?_⟩
  · rw [excludedRegionMsgpack_eq]
    simp [pack_message_msgpack, packbMsg_dropLast]
  · exact eraseHashField_append uuidStr t d _
  · rw [show (pack_message_json H uuidStr t d).1
        = regionJson uuidStr t d ++ [("hash", JField.jstr (b64encode (pack_message_json H uuidStr t d).2))] from rfl]
    rw [eraseHashField_append]
    rfl

/-- C2 (counterexample to the claim as stated): _send_at_cmd is not
exception-free — when a response contains no non-empty line (here the
empty string), `result[-1]` raises IndexError. -/
theorem C2_empty_response_raises :
    send_at_cmd (fun _ => "") = .error PyErr.indexError := rfl

/-- C2 (amended): provided each of the three examined responses yields
at least one kept line, _send_at_cmd makes at most 3 attempts, returns
the lines of the first attempt whose last line equals "OK" (so it
succeeds on the 3rd attempt when the first two are non-OK and the third
is OK), and after three consecutive non-OK attempts returns the last
attempt's lines, raising no exception; a response with no non-empty
lines instead raises IndexError. -/
theorem C2_send_retry (resp : Nat → String) (l0 l1 l2 : String)
    (h0 : (processResp (resp 0)).getLast? = some l0)
    (h1 : (processResp (resp 1)).getLast? = some l1)
    (h2 : (processResp (resp 2)).getLast? = some l2) :
    send_at_cmd resp = .ok (if l0 = "OK" then processResp (resp 0)
      else if l1 = "OK" then processResp (resp 1) else processResp (resp 2)) := by
  by_cases k0 : l0 = "OK" <;> by_cases k1 : l1 = "OK" <;>
    simp [send_at_cmd, send_at_cmd_go, h0, h1, h2, k0, k1]

/-- A concrete modem response stream: two non-OK attempts, then an OK
attempt. -/
def respWitness : Nat → String :=
  fun i => if i = 0 then "ERROR" else if i = 1 then "first\r\nERROR" else "42\r\nOK"

/-- C2 witness: on the stream whose first two attempts are non-OK and
whose third ends in OK, the send succeeds on the 3rd attempt with that
attempt's lines. -/
theorem C2_send_retry_witness : send_at_cmd respWitness = .ok ["42", "OK"] := by
  have h := C2_send_retry respWitness "ERROR" "ERROR" "OK" (by rfl) (by rfl) (by rfl)
  simpa using h

/-- C3: for every data map, UbirchDataClient.send hands the message hash
to the UPP/anchoring step exactly when the authoritative data-service
POST (the only POST for the binary path, the second POST for the textual
path) returned status 200, and on any other status it raises and sends
no seal. -/
theorem C3_seal_iff_200 (url : String) (H : List Nat → List Nat) (u : List Nat)
    (uuidStr : String) (t : Int) (d : Reading) (w : HttpWorld) :
    (dataClientSend url H u uuidStr t d w).2.2
      = (if (if url.endsWith "msgPack" then w.statuses w.posted else w.statuses (w.posted + 1)) = 200
         then some (if url.endsWith "msgPack" then (pack_message_msgpack H u t d).2
           else (pack_message_json H uuidStr t d).2)
         else none)
    ∧ (dataClientSend url H u uuidStr t d w).1
      = (if (if url.endsWith "msgPack" then w.statuses w.posted else w.statuses (w.posted + 1)) = 200
         then .ok () else .error ()) := by
  cases hu : url.endsWith "msgPack" <;>
    simp [dataClientSend, sendFinish, send_msgpack, send_json, postData, hu] <;>
    split <;> simp

/-- C7: for every data map, the textual path issues the data POST exactly
twice unconditionally and returns the second response's status as the
authoritative one, while the binary path issues exactly one data POST
and returns its status. -/
theorem C7_post_counts (H : List Nat → List Nat) (u : List Nat) (uuidStr : String)
    (t : Int) (d : Reading) (w : HttpWorld) :
    (send_json H uuidStr t d w).2.posted = w.posted + 2
    ∧ (send_json H uuidStr t d w).1.1 = w.statuses (w.posted + 1)
    ∧ (send_msgpack H u t d w).2.posted = w.posted + 1
    ∧ (send_msgpack H u t d w).1.1 = w.statuses w.posted := by
  refine ⟨?_, rfl, rfl, rfl⟩
  simp [send_json, postData]

/-- A cycle in which the device is connected, file logging is disabled
and ubirch_client.send raises. -/
def loopInputCex : LoopInput :=
  { connIsNetwork := true, isconnected := true, reconnectOk := true, logfile := false,
    logB := .ok (), sendRaises := true, interval := 60, passed := 42 }

/-- C4 (counterexample to the claim as stated): when transmission fails
the loop does not continue "without delay" — the except handler executes
time.sleep(3), so the trace of the failing cycle contains a 3-second
sleep before the next cycle. -/
theorem C4_delay_cex : Ev.sleep 3 ∈ (loopIteration loopInputCex).1 := by decide

/-- C4 (amended): whenever transmission fails during a cycle that
reached the send step, the main loop never calls the device reset — the
reset operation is unreachable from the transmission-failure branch —
and (as long as the log write does not itself raise) it logs the error
and continues to the next cycle after a fixed 3-second delay. -/
theorem C4_degraded_no_reset (i : LoopInput)
    (hc : i.isconnected = true) (hs : i.sendRaises = true) :
    Ev.reset ∉ (loopIteration i).1
    ∧ ((i.logfile = false ∨ i.logB = .ok ()) →
        (loopIteration i).2 = none
        ∧ Ev.sleep 3 ∈ (loopIteration i).1
        ∧ Ev.continueNext ∈ (loopIteration i).1) := by
  obtain ⟨cn, ic, ro, lf, lb, sr, iv, ps⟩ := i
  simp only at hc hs
  subst hc
  subst hs
  cases lf <;> rcases lb with e | u <;>
    by_cases hip : iv > ps <;>
      simp [loopIteration, connectivityPhase, sendPhase, hip]

/-- A cycle in which the device is connected, file logging is enabled
and succeeds, and ubirch_client.send raises. -/
def loopInputW : LoopInput :=
  { connIsNetwork := true, isconnected := true, reconnectOk := true, logfile := true,
    logB := .ok (), sendRaises := true, interval := 60, passed := 75 }

/-- C4 witness: a concrete failing-transmission cycle with a successful
log write reaches no reset, raises nothing, sleeps 3 seconds and
continues. -/
theorem C4_degraded_no_reset_witness :
    Ev.reset ∉ (loopIteration loopInputW).1
    ∧ (loopIteration loopInputW).2 = none
    ∧ Ev.sleep 3 ∈ (loopIteration loopInputW).1
    ∧ Ev.continueNext ∈ (loopIteration loopInputW).1 := by
  have h := C4_degraded_no_reset loopInputW rfl rfl
  exact ⟨h.1, h.2 (Or.inr rfl)⟩

/-- C5 (counterexample to the claim as stated): a failure of the log
write is not swallowed — when log_to_file (resp. FileLogger.log) raises,
report_and_reset with logfile=True (resp. ErrorHandler.log with a
configured log file and reset=True) never reaches machine.reset. -/
theorem C5_log_failure_blocks_reset_cex :
    Ev.reset ∉ (report_and_reset true (.error PyErr.ioError)).1
    ∧ Ev.reset ∉ (errorHandler_log true (.error PyErr.ioError) true).1 := by decide

/-- C5 (amended): on the fatal paths a failure of the log write itself
escalates: the log call is not guarded, so if writing the log file
raises, the exception propagates out of report_and_reset (and out of
ErrorHandler.log) and the device reset is never reached — log I/O
failure changes the outcome of the error handling. -/
theorem C5_log_failure_escalates (e : PyErr) :
    (report_and_reset true (.error e)).2 = some e
    ∧ Ev.reset ∉ (report_and_reset true (.error e)).1
    ∧ (errorHandler_log true (.error e) true).2 = some e
    ∧ Ev.reset ∉ (errorHandler_log true (.error e) true).1 := by
  simp [report_and_reset, errorHandler_log]

/-- One FileLogger.log write never makes the file larger than the larger
of its previous size and cap-plus-this-entry. -/
lemma fileLogger_log_size_le (ms n : Nat) (s : LogFile) :
    (fileLogger_log ms n s).size ≤ max s.size (ms + n) := by
  simp only [fileLogger_log, writeStart, Nat.max_def]
  split_ifs <;> omega

/-- Any sequence of FileLogger.log writes keeps the file within the
larger of its initial size and cap-plus-largest-entry. -/
lemma runWrites_size_le (ms : Nat) : ∀ (entries : List Nat) (s0 : LogFile),
    (runWrites ms entries s0).size ≤ max s0.size (ms + entries.foldr max 0)
  | [], s0 => by simp [runWrites]
  | n :: es, s0 => by
    have ih := runWrites_size_le ms es (fileLogger_log ms n s0)
    have h2 := fileLogger_log_size_le ms n s0
    have hstep : runWrites ms (n :: es) s0 = runWrites ms es (fileLogger_log ms n s0) := rfl
    rw [hstep]
    refine le_trans ih ?_
    simp only [List.foldr_cons]
    revert h2
    simp only [Nat.max_def]
    split_ifs <;> omega

/-- C8: for every sequence of log writes within one process run, whenever
the tracked write position exceeds the configured size cap the next
write starts at file offset 0; consequently each write begins at an
offset of at most the cap, and the log file never grows beyond the cap
plus one entry (its size stays below the larger of its initial size and
the cap plus the largest entry written). -/
theorem C8_log_wraparound (ms : Nat) (s : LogFile) :
    (s.pos > ms → writeStart ms s = 0)
    ∧ writeStart ms s ≤ ms
    ∧ ∀ (entries : List Nat) (s0 : LogFile),
        (runWrites ms entries s0).size ≤ max s0.size (ms + entries.foldr max 0) := by
  refine ⟨fun h => by simp [writeStart, h], ?_, fun entries s0 => runWrites_size_le ms entries s0⟩
  unfold writeStart
  split <;> omega

/-- C8 witness: with the default cap 20000 and a position beyond the cap
the next write starts at offset 0, and three 9000-byte entries starting
from an empty file stay within cap plus one entry. -/
theorem C8_log_wraparound_witness :
    writeStart 20000 ⟨20001, 20001⟩ = 0
    ∧ writeStart 20000 ⟨20001, 20001⟩ ≤ 20000
    ∧ (runWrites 20000 [9000, 9000, 9000] ⟨0, 0⟩).size
        ≤ max (0 : Nat) (20000 + [9000, 9000, 9000].foldr max 0) := by
  have h := C8_log_wraparound 20000 ⟨20001, 20001⟩
  exact ⟨h.1 (by decide), h.2.1, h.2.2 [9000, 9000, 9000] ⟨0, 0⟩⟩

/-- C9: the module-level global file_position read by log_to_file is
never assigned at module scope (the assignment in Main.__init__ binds a
method-local name instead), so with logging enabled the first
log_to_file call raises NameError, and report_and_reset called with
logfile=True raises before reaching machine.reset. -/
theorem C9_file_position_unbound (fileSize entryLen : Nat) :
    mainInitFilePosition = none
    ∧ log_to_file mainInitFilePosition fileSize entryLen = .error PyErr.nameError
    ∧ (report_and_reset_main true mainInitFilePosition fileSize entryLen).2
        = some PyErr.nameError
    ∧ Ev.reset ∉ (report_and_reset_main true mainInitFilePosition fileSize entryLen).1 := by
  refine ⟨rfl, rfl, rfl, ?_⟩
  show Ev.reset ∉ ([Ev.ledPurple, Ev.printMsg, Ev.logAttempt] : List Ev)
  decide

/-- C10: for every ErrorHandler constructed with file_logging_enabled =
True, the boolean sd_card argument lands positionally in FileLogger's
max_file_size_bytes parameter, so the constructed FileLogger has
MAX_FILE_SIZE equal to that boolean read as an integer (1 or 0, never
the 20000-byte default), and since sd_card_mounted keeps its default
False its log path is "log.txt", never "/sd/log.txt". -/
theorem C10_sd_card_as_size (sd : Bool) (currentSize : Nat) :
    errorHandler_init true sd currentSize
      = some { MAX_FILE_SIZE := pyBoolAsInt sd, logfile := "log.txt"
               file_position := currentSize }
    ∧ pyBoolAsInt sd ≠ 20000
    ∧ (errorHandler_init true sd currentSize).map (fun fl => fl.MAX_FILE_SIZE)
      = some (if sd then 1 else 0) := by
  refine ⟨rfl, ?_, ?_⟩
  · cases sd <;> simp [pyBoolAsInt]
  · cases sd <;> rfl
